import Mathlib

/-!
Verification of the benchmarking build orchestrator
(`Laboratory/Rust/benchmarking/build.rs`).

The build script resolves a platform-dependent path to the bebop schema
compiler, stores it in the global `COMPILER_PATH`, batch-compiles the
`schemas` directory into `src/bebops`, and then runs the protobuf code
generator over `schemas/jazz.proto` into `src/protos`.

The embedding models the two external code generators through an
environment `Env` of oracles (directory listing, per-schema compilation
outcome, protobuf generation outcome).  A run of the orchestrator produces
the trace of executed steps (as a list of events, each recording the value
of the global compiler path it observed) together with either the generated
files of both pipelines or the first error, exactly as the straight-line
Rust `main` does.
-/

namespace BebopBench

/-- Host platform family, as discriminated by the conditional compilation
attributes in the build script. -/
inductive Platform where
  | windows
  | unix
deriving DecidableEq

/-- Path to the bebop compiler executable, one constant per platform family,
from the two conditionally compiled `BEBOP_BIN` constants. -/
def BEBOP_BIN : Platform → String
  | .windows => "../../../bin/compiler/Windows-Debug/bebopc.exe"
  | .unix => "../../../bin/compiler/Linux-Debug/bebopc"

/-- A generated source file: the output directory a generator placed it in,
its file name inside that directory, and its contents. -/
structure GenFile where
  dir : String
  name : String
  contents : String
deriving DecidableEq

/-- Configuration of the protobuf code generator, built up by the builder
methods of `protobuf_codegen_pure::Codegen`: an output directory, the list
of explicitly named input schema files, and the include-search directories. -/
structure Codegen where
  outDir : String := ""
  inputFiles : List String := []
  includes : List String := []
deriving DecidableEq

/-- The specification's name for a fully built generator configuration. -/
abbrev CodegenRequest : Type := Codegen

/-- Outcomes of the external collaborators, supplied by the environment of
one build: the listing of a directory, the result of compiling one
first-format schema file (generated text, or the compiler's diagnostic),
and the result of the second-format generator on a request (a content
function for each input file, or the generator's diagnostic). -/
structure Env where
  readDir : String → List String
  compileSchema : String → Except String String
  protoGen : CodegenRequest → Except String (String → String)

/-- Drop the extension (the part after the last dot) of a file name;
a name with no dot is returned unchanged. -/
def dropExtension (s : String) : String :=
  let rev := s.data.reverse
  if rev.contains '.' then
    String.mk (((rev.dropWhile fun c => c != '.').drop 1).reverse)
  else s

/-- Last path component of a slash-separated path. -/
def baseName (s : String) : String :=
  String.mk ((s.data.reverse.takeWhile fun c => c != '/').reverse)

/-- Whether a directory entry is a first-format (bebop) schema definition
file, recognized by the bebop schema extension. -/
def isSchemaFile (s : String) : Bool :=
  List.isSuffixOf (".bop").data s.data

/-- Name of the generated artifact derived from a schema file's own name:
the schema's stem with the generated-source extension. -/
def artifactName (schema : String) : String :=
  dropExtension schema ++ ".rs"

/-- Compile a list of schema files in order, fail-fast: the first schema
whose compilation fails aborts the whole batch with an error carrying that
schema's identity and the compiler's diagnostic; otherwise one generated
file per schema is placed in the output directory. -/
def buildSchemas (env : Env) (outputDir : String) : List String → Except String (List GenFile)
  | [] => .ok []
  | s :: rest =>
    match env.compileSchema s with
    | .error diag => .error (s ++ ": " ++ diag)
    | .ok art =>
      match buildSchemas env outputDir rest with
      | .error e => .error e
      | .ok gl => .ok ({ dir := outputDir, name := artifactName s, contents := art } :: gl)

/-- Modelled from the spec: `bebop_tools::build_schema_dir` lives in this
repository outside the sources under verification, so its behavior follows
the specification of the Batch Schema Compiler Invoker — it enumerates the
schema source directory once, selects the first-format schema definition
files, and deterministically regenerates one artifact per schema in the
output directory under a name derived from the schema file's own name,
aborting the whole batch on the first schema whose compilation fails
(carrying that schema's identity and the external diagnostic); an empty
directory is a valid no-op. -/
def build_schema_dir (env : Env) (inputDir outputDir : String) : Except String (List GenFile) :=
  buildSchemas env outputDir ((env.readDir inputDir).filter isSchemaFile)

/-- Fresh protobuf codegen configuration (`Codegen::new`). -/
def Codegen.new : CodegenRequest := {}

/-- Set the output directory of the request (`Codegen::out_dir`). -/
def Codegen.out_dir (c : CodegenRequest) (d : String) : CodegenRequest :=
  { c with outDir := d }

/-- Append the explicitly named input schema files (`Codegen::inputs`). -/
def Codegen.inputs (c : CodegenRequest) (l : List String) : CodegenRequest :=
  { c with inputFiles := c.inputFiles ++ l }

/-- Append one include-search directory (`Codegen::include`). -/
def Codegen.includeDir (c : CodegenRequest) (d : String) : CodegenRequest :=
  { c with includes := c.includes ++ [d] }

/-- Modelled from the spec: the second-format generator is an external
process invoked once over the whole request; on success the output
directory receives exactly one generated artifact per named input file,
named after the input file's own name; on failure the generator's
diagnostic is reported. -/
def Codegen.run (env : Env) (c : CodegenRequest) : Except String (List GenFile) :=
  match env.protoGen c with
  | .error diag => .error diag
  | .ok gen =>
    .ok (c.inputFiles.map fun i =>
      { dir := c.outDir, name := artifactName (baseName i), contents := gen i })

/-- One executed step of the orchestrator.  Each generation event records
the value of the global compiler path at the moment the step started, and
the batch event additionally records which schema files it compiled. -/
inductive Event where
  | setCompilerPath (path : String)
  | batchCompile (toolPath : Option String) (inputDir outputDir : String) (schemas : List String)
  | protoCodegen (toolPath : Option String) (req : CodegenRequest)
deriving DecidableEq

/-- Whether an event is the assignment of the global compiler path. -/
def Event.isSet : Event → Bool
  | .setCompilerPath _ => true
  | _ => false

/-- Whether an event is an invocation of the second-format generator. -/
def Event.isProto : Event → Bool
  | .protoCodegen _ _ => true
  | _ => false

/-- The protobuf codegen request built in `main`: output directory
`src/protos`, the single named input `schemas/jazz.proto`, include-search
directory `schemas`. -/
def mainReq : CodegenRequest :=
  ((Codegen.new.out_dir "src/protos").inputs ["schemas/jazz.proto"]).includeDir "schemas"

/-- The build script's `main`: set the global compiler path from
`BEBOP_BIN`, batch-compile the `schemas` directory into `src/bebops`, then
run the protobuf generator on `mainReq`; the first failing step aborts the
run (a protobuf failure is reported through
`.expect("Codegen failed")`, which prefixes the diagnostic).  The result is
the trace of executed events together with the generated files of both
pipelines, or the first error. -/
def main (env : Env) (p : Platform) :
    List Event × Except String (List GenFile × List GenFile) :=
  match build_schema_dir env "schemas" "src/bebops" with
  | .error diag =>
    ([Event.setCompilerPath (BEBOP_BIN p),
      Event.batchCompile (some (BEBOP_BIN p)) "schemas" "src/bebops"
        ((env.readDir "schemas").filter isSchemaFile)],
     .error diag)
  | .ok bebopFiles =>
    match Codegen.run env mainReq with
    | .error diag =>
      ([Event.setCompilerPath (BEBOP_BIN p),
        Event.batchCompile (some (BEBOP_BIN p)) "schemas" "src/bebops"
          ((env.readDir "schemas").filter isSchemaFile),
        Event.protoCodegen (some (BEBOP_BIN p)) mainReq],
       .error ("Codegen failed: " ++ diag))
    | .ok protoFiles =>
      ([Event.setCompilerPath (BEBOP_BIN p),
        Event.batchCompile (some (BEBOP_BIN p)) "schemas" "src/bebops"
          ((env.readDir "schemas").filter isSchemaFile),
        Event.protoCodegen (some (BEBOP_BIN p)) mainReq],
       .ok (bebopFiles, protoFiles))

/-- Environment with an empty schema source directory. -/
def envEmpty : Env where
  readDir := fun _ => []
  compileSchema := fun s => .ok s
  protoGen := fun _ => .ok id

/-- Environment where every external step succeeds; the schema directory
holds one bebop schema next to the protobuf schema. -/
def envOk : Env where
  readDir := fun _ => ["jazz.bop", "jazz.proto"]
  compileSchema := fun s => .ok ("gen " ++ s)
  protoGen := fun _ => .ok fun i => "pb " ++ i

/-- Environment where the batch schema compilation fails. -/
def envBatchFail : Env where
  readDir := fun _ => ["bad.bop"]
  compileSchema := fun _ => .error "parse error"
  protoGen := fun _ => .ok id

/-- Environment where the protobuf generation fails. -/
def envProtoFail : Env where
  readDir := fun _ => ["jazz.bop"]
  compileSchema := fun s => .ok s
  protoGen := fun _ => .error "boom"

/-- Shape of a successful batch: one artifact per schema, named by the
convention derived from the schema's own name, every artifact placed in the
batch output directory. -/
theorem buildSchemas_ok_shape (env : Env) (outputDir : String) (l : List String)
    (gl : List GenFile) (h : buildSchemas env outputDir l = .ok gl) :
    gl.map GenFile.name = l.map artifactName ∧ ∀ f ∈ gl, f.dir = outputDir := by
  induction l generalizing gl with
  | nil =>
    cases h
    exact ⟨rfl, by intro f hf; cases hf⟩
  | cons s t ih =>
    unfold buildSchemas at h
    cases hc : env.compileSchema s with
    | error d => rw [hc] at h; cases h
    | ok art =>
      rw [hc] at h
      cases hr : buildSchemas env outputDir t with
      | error e => rw [hr] at h; cases h
      | ok gl2 =>
        rw [hr] at h
        cases h
        obtain ⟨h1, h2⟩ := ih gl2 hr
        refine ⟨by simp [h1], ?_⟩
        intro f hf
        rcases List.mem_cons.1 hf with hf | hf
        · rw [hf]
        · exact h2 f hf

/-- A batch over schemas whose compilations all succeed succeeds. -/
theorem buildSchemas_all_ok (env : Env) (outputDir : String) (l : List String)
    (h : ∀ s ∈ l, ∃ a, env.compileSchema s = .ok a) :
    ∃ gl, buildSchemas env outputDir l = .ok gl := by
  induction l with
  | nil => exact ⟨[], rfl⟩
  | cons s t ih =>
    obtain ⟨a, ha⟩ := h s (List.mem_cons_self s t)
    obtain ⟨gl, hgl⟩ := ih fun x hx => h x (List.mem_cons_of_mem s hx)
    refine ⟨{ dir := outputDir, name := artifactName s, contents := a } :: gl, ?_⟩
    unfold buildSchemas
    rw [ha, hgl]

/-- A batch run depends only on the per-schema compilation outcomes:
two environments whose compilers agree produce the same batch. -/
theorem buildSchemas_congr (env env2 : Env) (outputDir : String) (l : List String)
    (h : ∀ s, env.compileSchema s = env2.compileSchema s) :
    buildSchemas env outputDir l = buildSchemas env2 outputDir l := by
  induction l with
  | nil => rfl
  | cons s t ih =>
    unfold buildSchemas
    rw [h s, ih]

/-- Shape of a successful protobuf codegen: exactly one artifact per named
input file, named after the input file, placed in the request's output
directory. -/
theorem run_ok_shape (env : Env) (c : CodegenRequest) (gl : List GenFile)
    (h : Codegen.run env c = .ok gl) :
    gl.length = c.inputFiles.length ∧
    gl.map GenFile.name = c.inputFiles.map (fun i => artifactName (baseName i)) ∧
    ∀ f ∈ gl, f.dir = c.outDir := by
  unfold Codegen.run at h
  cases hp : env.protoGen c with
  | error d => rw [hp] at h; cases h
  | ok gen =>
    rw [hp] at h
    cases h
    refine ⟨by simp, by simp, ?_⟩
    intro f hf
    obtain ⟨i, _, rfl⟩ := List.mem_map.1 hf
    rfl

/-- Run of the orchestrator whose batch compilation fails: the trace stops
after the batch step and the batch error is the result. -/
theorem main_batch_error (env : Env) (p : Platform) (d : String)
    (h : build_schema_dir env "schemas" "src/bebops" = .error d) :
    main env p =
      ([Event.setCompilerPath (BEBOP_BIN p),
        Event.batchCompile (some (BEBOP_BIN p)) "schemas" "src/bebops"
          ((env.readDir "schemas").filter isSchemaFile)],
       .error d) := by
  unfold main
  rw [h]

/-- Run of the orchestrator whose batch succeeds and whose protobuf
generation fails: all three steps are in the trace and the protobuf
diagnostic, prefixed by the expect message, is the result. -/
theorem main_proto_error (env : Env) (p : Platform) (b : List GenFile) (d : String)
    (hb : build_schema_dir env "schemas" "src/bebops" = .ok b)
    (hq : Codegen.run env mainReq = .error d) :
    main env p =
      ([Event.setCompilerPath (BEBOP_BIN p),
        Event.batchCompile (some (BEBOP_BIN p)) "schemas" "src/bebops"
          ((env.readDir "schemas").filter isSchemaFile),
        Event.protoCodegen (some (BEBOP_BIN p)) mainReq],
       .error ("Codegen failed: " ++ d)) := by
  unfold main
  rw [hb, hq]

/-- Fully successful run of the orchestrator: all three steps are in the
trace and both pipelines' files are the result. -/
theorem main_ok (env : Env) (p : Platform) (b q : List GenFile)
    (hb : build_schema_dir env "schemas" "src/bebops" = .ok b)
    (hq : Codegen.run env mainReq = .ok q) :
    main env p =
      ([Event.setCompilerPath (BEBOP_BIN p),
        Event.batchCompile (some (BEBOP_BIN p)) "schemas" "src/bebops"
          ((env.readDir "schemas").filter isSchemaFile),
        Event.protoCodegen (some (BEBOP_BIN p)) mainReq],
       .ok (b, q)) := by
  unfold main
  rw [hb, hq]

example : artifactName "jazz.bop" = "jazz.rs" := by decide
example : baseName "schemas/jazz.proto" = "jazz.proto" := by decide
example : isSchemaFile "jazz.proto" = false := by decide
example : build_schema_dir envEmpty "schemas" "src/bebops" = .ok [] := rfl

/-- C1: the Orchestrator runs its steps strictly sequentially in the order
tool-path resolution, then batch schema compilation, then single-target
protobuf codegen: the trace of every run is one of the two sequential
prefixes of that order, so the batch compilation over the schema source
directory has completed before the second-format generator is ever started
and the two pipelines never interleave. -/
theorem orchestrator_sequential_order (env : Env) (p : Platform) :
    (main env p).1 =
      [Event.setCompilerPath (BEBOP_BIN p),
       Event.batchCompile (some (BEBOP_BIN p)) "schemas" "src/bebops"
         ((env.readDir "schemas").filter isSchemaFile)] ∨
    (main env p).1 =
      [Event.setCompilerPath (BEBOP_BIN p),
       Event.batchCompile (some (BEBOP_BIN p)) "schemas" "src/bebops"
         ((env.readDir "schemas").filter isSchemaFile),
       Event.protoCodegen (some (BEBOP_BIN p)) mainReq] := by
  rcases hb : build_schema_dir env "schemas" "src/bebops" with d | b
  · rw [main_batch_error env p d hb]
    exact Or.inl rfl
  · rcases hq : Codegen.run env mainReq with d | q
    · rw [main_proto_error env p b d hb hq]
      exact Or.inr rfl
    · rw [main_ok env p b q hb hq]
      exact Or.inr rfl

/-- C2: a failing step aborts the run at once — a batch compilation failure
makes that failure the build's result and keeps the protobuf generator out
of the trace entirely — and the run's result is a success exactly when the
batch compilation and the protobuf generation both completed without
error. -/
theorem fail_fast_and_success_condition (env : Env) (p : Platform) :
    (∀ d, build_schema_dir env "schemas" "src/bebops" = .error d →
        (main env p).2 = .error d ∧ (main env p).1.filter Event.isProto = []) ∧
    ((∃ r, (main env p).2 = .ok r) ↔
      (∃ b, build_schema_dir env "schemas" "src/bebops" = .ok b) ∧
      (∃ q, Codegen.run env mainReq = .ok q)) := by
  rcases hb : build_schema_dir env "schemas" "src/bebops" with d | b
  · rw [main_batch_error env p d hb]
    refine ⟨?_, ?_⟩
    · intro d2 hd2
      cases hd2
      exact ⟨rfl, rfl⟩
    · constructor
      · rintro ⟨r, hr⟩
        cases hr
      · rintro ⟨⟨b, hbb⟩, -⟩
        cases hbb
  · refine ⟨?_, ?_⟩
    · intro d2 hd2
      cases hd2
    · rcases hq : Codegen.run env mainReq with d | q
      · rw [main_proto_error env p b d hb hq]
        constructor
        · rintro ⟨r, hr⟩
          cases hr
        · rintro ⟨-, q, hqq⟩
          cases hqq
      · rw [main_ok env p b q hb hq]
        exact ⟨fun _ => ⟨⟨b, rfl⟩, ⟨q, rfl⟩⟩, fun _ => ⟨(b, q), rfl⟩⟩

/-- C3: the Tool Path Resolver is a total pure function of the platform
family: Windows maps to the Windows-Debug `bebopc.exe` path, Unix-like to
the Linux-Debug `bebopc` path, both paths are non-empty, the mapping covers
every declared platform, and being a function it is identical on every
evaluation with no side effects. -/
theorem bebop_bin_total_platform_correct :
    BEBOP_BIN Platform.windows = "../../../bin/compiler/Windows-Debug/bebopc.exe" ∧
    BEBOP_BIN Platform.unix = "../../../bin/compiler/Linux-Debug/bebopc" ∧
    (∀ p : Platform, 0 < (BEBOP_BIN p).length) ∧
    List.isSuffixOf (".exe").data (BEBOP_BIN Platform.windows).data = true := by
  refine ⟨rfl, rfl, ?_, by decide⟩
  intro p
  cases p <;> decide

/-- C4: the global compiler path is assigned exactly once per run — the
assignment is the very first event of the trace — and is never reassigned,
so every generation event of the trace observes the same already-set tool
path. -/
theorem compiler_path_set_once_before_codegen (env : Env) (p : Platform) :
    (main env p).1.filter Event.isSet = [Event.setCompilerPath (BEBOP_BIN p)] ∧
    (main env p).1.head? = some (Event.setCompilerPath (BEBOP_BIN p)) ∧
    ((main env p).1.all fun e =>
        match e with
        | Event.setCompilerPath q => q == BEBOP_BIN p
        | Event.batchCompile tp _ _ _ => tp == some (BEBOP_BIN p)
        | Event.protoCodegen tp _ => tp == some (BEBOP_BIN p)) = true := by
  rcases hb : build_schema_dir env "schemas" "src/bebops" with d | b
  · rw [main_batch_error env p d hb]
    exact ⟨rfl, rfl, by simp⟩
  · rcases hq : Codegen.run env mainReq with d | q
    · rw [main_proto_error env p b d hb hq]
      exact ⟨rfl, rfl, by simp⟩
    · rw [main_ok env p b q hb hq]
      exact ⟨rfl, rfl, by simp⟩

/-- C5: the protobuf generator is invoked through a single batched process
invocation: never more than once per run, and exactly once as soon as the
batch step has succeeded, always with the request holding its own output
directory `src/protos`, the explicit input list `schemas/jazz.proto` and
the include-search directory `schemas`; a successful invocation yields
exactly one generated artifact per named input file, each placed in that
output directory. -/
theorem proto_codegen_single_invocation (env : Env) (p : Platform) :
    ((main env p).1.filter Event.isProto).length ≤ 1 ∧
    (∀ b, build_schema_dir env "schemas" "src/bebops" = .ok b →
        (main env p).1.filter Event.isProto =
          [Event.protoCodegen (some (BEBOP_BIN p)) mainReq]) ∧
    mainReq.outDir = "src/protos" ∧
    mainReq.inputFiles = ["schemas/jazz.proto"] ∧
    mainReq.includes = ["schemas"] ∧
    (∀ q, Codegen.run env mainReq = .ok q →
        q.length = mainReq.inputFiles.length ∧ ∀ f ∈ q, f.dir = "src/protos") := by
  have hrun : ∀ q, Codegen.run env mainReq = .ok q →
      q.length = mainReq.inputFiles.length ∧ ∀ f ∈ q, f.dir = "src/protos" := by
    intro q hq
    obtain ⟨hlen, -, hd⟩ := run_ok_shape env mainReq q hq
    exact ⟨hlen, hd⟩
  rcases hb : build_schema_dir env "schemas" "src/bebops" with d | b
  · rw [main_batch_error env p d hb]
    refine ⟨Nat.zero_le 1, ?_, rfl, rfl, rfl, hrun⟩
    intro b hbb
    cases hbb
  · have htr : ∀ b2 : List GenFile,
        (Except.ok b : Except String (List GenFile)) = Except.ok b2 →
        (main env p).1.filter Event.isProto =
          [Event.protoCodegen (some (BEBOP_BIN p)) mainReq] := by
      intro b2 _
      rcases hq : Codegen.run env mainReq with d | q
      · rw [main_proto_error env p b d hb hq]
        rfl
      · rw [main_ok env p b q hb hq]
        rfl
    refine ⟨?_, htr, rfl, rfl, rfl, hrun⟩
    rw [htr b rfl]
    exact Nat.le_refl 1

/-- C6: a batch over an empty schema source directory is a valid no-op:
the invoker succeeds and produces zero output files. -/
theorem empty_schema_dir_noop (env : Env) (inputDir outputDir : String)
    (h : env.readDir inputDir = []) :
    build_schema_dir env inputDir outputDir = .ok [] := by
  unfold build_schema_dir
  rw [h]
  rfl

/-- Witness for C6: the concrete environment whose schema directory listing
is empty. -/
theorem empty_schema_dir_noop_witness :
    build_schema_dir envEmpty "schemas" "src/bebops" = .ok [] :=
  empty_schema_dir_noop envEmpty "schemas" "src/bebops" rfl

/-- C7: over a schema set whose compilations all succeed, the batch invoker
produces exactly one output artifact per schema file found in the source
directory, each named by the convention derived from that schema file's own
name, and re-running against unchanged inputs with the same deterministic
compiler reproduces byte-identical output. -/
theorem batch_artifact_per_schema_idempotent (env env2 : Env)
    (inputDir outputDir : String)
    (hok : ∀ s ∈ (env.readDir inputDir).filter isSchemaFile,
        ∃ a, env.compileSchema s = .ok a)
    (hdir : env2.readDir inputDir = env.readDir inputDir)
    (hcomp : ∀ s, env2.compileSchema s = env.compileSchema s) :
    (∃ gl, build_schema_dir env inputDir outputDir = .ok gl ∧
        gl.length = ((env.readDir inputDir).filter isSchemaFile).length ∧
        gl.map GenFile.name =
          ((env.readDir inputDir).filter isSchemaFile).map artifactName) ∧
    build_schema_dir env2 inputDir outputDir =
      build_schema_dir env inputDir outputDir := by
  constructor
  · obtain ⟨gl, hgl⟩ := buildSchemas_all_ok env outputDir _ hok
    obtain ⟨hn, -⟩ := buildSchemas_ok_shape env outputDir _ gl hgl
    refine ⟨gl, hgl, ?_, hn⟩
    have := congrArg List.length hn
    simpa using this
  · unfold build_schema_dir
    rw [hdir, buildSchemas_congr env2 env outputDir _ hcomp]

/-- Witness for C7: the all-success environment, re-run against itself. -/
theorem batch_artifact_per_schema_idempotent_witness :
    (∃ gl, build_schema_dir envOk "schemas" "src/bebops" = .ok gl ∧
        gl.length = ((envOk.readDir "schemas").filter isSchemaFile).length ∧
        gl.map GenFile.name =
          ((envOk.readDir "schemas").filter isSchemaFile).map artifactName) ∧
    build_schema_dir envOk "schemas" "src/bebops" =
      build_schema_dir envOk "schemas" "src/bebops" :=
  batch_artifact_per_schema_idempotent envOk envOk "schemas" "src/bebops"
    (fun s _ => ⟨"gen " ++ s, rfl⟩) rfl (fun _ => rfl)

/-- C8 as stated fails on the second pipeline: when the protobuf generator
fails with the diagnostic `boom`, the error reported by the build is
`Codegen failed: boom` — the `.expect` call prefixes a static context
message, so the reported error is not the originating error unchanged. -/
theorem error_unchanged_counterexample :
    (main envProtoFail Platform.unix).2 = .error ("Codegen failed: " ++ "boom") ∧
    (("Codegen failed: " ++ "boom") == "boom") = false := by
  exact ⟨rfl, by decide⟩

/-- C8 amended: a batch compilation failure is propagated as the build's
result verbatim (carrying the failing schema's identity and diagnostic
unchanged); a protobuf generation failure is reported with the static
context prefix `Codegen failed: ` prepended and the generator's diagnostic
preserved verbatim as the suffix — no failure is swallowed or replaced by a
purely generic message. -/
theorem error_propagation_preserves_diagnostic (env : Env) (p : Platform) :
    (∀ d, build_schema_dir env "schemas" "src/bebops" = .error d →
        (main env p).2 = .error d) ∧
    (∀ b d, build_schema_dir env "schemas" "src/bebops" = .ok b →
        Codegen.run env mainReq = .error d →
        (main env p).2 = .error ("Codegen failed: " ++ d)) := by
  constructor
  · intro d hd
    rw [main_batch_error env p d hd]
  · intro b d hb hq
    rw [main_proto_error env p b d hb hq]

/-- C9: on a successful run the two pipelines have written only into their
own, distinct output directories — every batch artifact lies in
`src/bebops`, every protobuf artifact in `src/protos`, no artifact of one
pipeline lies in the other's directory, and neither pipeline has written
into the read-only `schemas` source directory. -/
theorem disjoint_output_directories (env : Env) (p : Platform) (b q : List GenFile)
    (h : (main env p).2 = .ok (b, q)) :
    (∀ f ∈ b, f.dir = "src/bebops") ∧
    (∀ f ∈ q, f.dir = "src/protos") ∧
    (∀ f ∈ b, ∀ g ∈ q, f.dir ≠ g.dir) ∧
    (∀ f ∈ b, f.dir ≠ "schemas") ∧
    (∀ f ∈ q, f.dir ≠ "schemas") := by
  rcases hb : build_schema_dir env "schemas" "src/bebops" with d | b2
  · rw [main_batch_error env p d hb] at h
    cases h
  · rcases hq : Codegen.run env mainReq with d | q2
    · rw [main_proto_error env p b2 d hb hq] at h
      cases h
    · rw [main_ok env p b2 q2 hb hq] at h
      have h3 : (b2, q2) = (b, q) := Except.ok.inj h
      injection h3 with hbb hqq
      subst hbb
      subst hqq
      have hbU : buildSchemas env "src/bebops"
          ((env.readDir "schemas").filter isSchemaFile) = .ok b2 := hb
      obtain ⟨-, hdirs⟩ := buildSchemas_ok_shape env "src/bebops" _ b2 hbU
      obtain ⟨-, -, hqdirs⟩ := run_ok_shape env mainReq q2 hq
      refine ⟨hdirs, fun f hf => hqdirs f hf, ?_, ?_, ?_⟩
      · intro f hf g hg
        rw [hdirs f hf, hqdirs g hg]
        decide
      · intro f hf
        rw [hdirs f hf]
        decide
      · intro f hf
        rw [hqdirs f hf]
        decide

/-- Witness for C9: the concrete successful run of the all-success
environment, with its one bebop artifact and one protobuf artifact. -/
theorem disjoint_output_directories_witness :
    (∀ f ∈ [GenFile.mk "src/bebops" "jazz.rs" "gen jazz.bop"], f.dir = "src/bebops") ∧
    (∀ f ∈ [GenFile.mk "src/protos" "jazz.rs" "pb schemas/jazz.proto"], f.dir = "src/protos") ∧
    (∀ f ∈ [GenFile.mk "src/bebops" "jazz.rs" "gen jazz.bop"],
        ∀ g ∈ [GenFile.mk "src/protos" "jazz.rs" "pb schemas/jazz.proto"], f.dir ≠ g.dir) ∧
    (∀ f ∈ [GenFile.mk "src/bebops" "jazz.rs" "gen jazz.bop"], f.dir ≠ "schemas") ∧
    (∀ f ∈ [GenFile.mk "src/protos" "jazz.rs" "pb schemas/jazz.proto"], f.dir ≠ "schemas") :=
  disjoint_output_directories envOk Platform.unix
    [GenFile.mk "src/bebops" "jazz.rs" "gen jazz.bop"]
    [GenFile.mk "src/protos" "jazz.rs" "pb schemas/jazz.proto"] rfl

/-- C10: the protobuf input schema `schemas/jazz.proto` and its include
directory `schemas` lie inside the very directory the batch step
enumerates, yet the batch invoker never treats the protobuf schema as a
first-format schema: the extension check rejects it, it is never in the
compiled set of any run, and the batch output artifacts correspond exactly
to the first-format schema files found. -/
theorem proto_schema_not_batch_compiled (env : Env) :
    mainReq.inputFiles = ["schemas" ++ "/" ++ "jazz.proto"] ∧
    mainReq.includes = ["schemas"] ∧
    isSchemaFile "jazz.proto" = false ∧
    ((env.readDir "schemas").filter isSchemaFile).contains "jazz.proto" = false ∧
    (∀ gl, build_schema_dir env "schemas" "src/bebops" = .ok gl →
        gl.map GenFile.name =
          ((env.readDir "schemas").filter isSchemaFile).map artifactName) := by
  refine ⟨by decide, rfl, by decide, ?_, ?_⟩
  · have hmem : "jazz.proto" ∉ (env.readDir "schemas").filter isSchemaFile := by
      intro hm
      exact absurd (List.of_mem_filter hm) (by decide)
    simpa using hmem
  · intro gl hgl
    exact (buildSchemas_ok_shape env "src/bebops" _ gl hgl).1

end BebopBench
